import Mathlib

/-!
Shallow embedding of the RG-Customer-Hub access-control and tenant-configuration
core (NestJS/TypeScript), together with theorems settling the frozen claims.

Embedded source files:
- `src/login.guard.ts` (LoginGuard.canActivate),
- `src/custom-decorator.ts` (RequireLogin / RequireLoginFalse metadata),
- `src/tenant/tenant.service.ts` (findAccessibleSubApplications,
  getTenantConfigByAppCode, updateTenantAppSettings),
- `src/tenant/tenant.controller.ts` (getAppConfig, verifyAuth),
- the TypeORM entities (Tenant, SubApplication, TenantApplication, User,
  Role, Permission).

Conventions of the embedding: the relational store is an explicit `DB` record
of entity lists; TypeORM `findOne` is `List.find?` in list order; eager-loaded
relations are resolved through foreign keys; JSON settings blobs are
association lists over an arbitrary value type `V` with JavaScript
object-spread semantics; thrown exceptions are `Except` errors; JavaScript
string primitives (`startsWith`, `endsWith`, `split`) are re-implemented over
character lists so that every definition evaluates inside the kernel.
-/

namespace RGHub

/-! Section: JavaScript string primitives -/

/-- Model of JavaScript `String.prototype.startsWith`. -/
def jsStartsWith (s pre : String) : Bool := pre.data.isPrefixOf s.data

/-- Model of JavaScript `String.prototype.endsWith`. -/
def jsEndsWith (s suf : String) : Bool := suf.data.isSuffixOf s.data

/-- Accumulator splitter over a character list for `jsSplitChar`. -/
def splitOnCharAux (c : Char) : List Char → List Char → List (List Char)
  | [], acc => [acc.reverse]
  | x :: xs, acc =>
    if x == c then acc.reverse :: splitOnCharAux c xs []
    else splitOnCharAux c xs (x :: acc)

/-- Model of JavaScript `s.split(c)` for a single-character separator. -/
def jsSplitChar (s : String) (c : Char) : List String :=
  (splitOnCharAux c s.data []).map List.asString

/-- Model of JavaScript `authorization.split(' ')[1]`: `none` stands for
`undefined` when the split has no second element. -/
def jsSplitSecond (s : String) : Option String := (jsSplitChar s ' ').get? 1

/-! Section: Settings blobs (JSON objects) with object-spread semantics -/

/-- JSON settings object `Record<string, any>`, as an association list. -/
abbrev Settings (V : Type) : Type := List (String × V)

/-- Property lookup on a settings object (first binding of the key wins). -/
def jsLookup {V : Type} (s : Settings V) (k : String) : Option V :=
  (List.find? (fun kv => kv.1 == k) s).map Prod.snd

/-- Key-presence test on a settings object. -/
def hasKey {V : Type} (s : Settings V) (k : String) : Bool :=
  List.any s (fun kv => kv.1 == k)

/-- Override step of the object spread: a binding of the left object takes
the right object's value when the right object binds the same key. -/
def overrideWith {V : Type} (b : Settings V) (kv : String × V) : String × V :=
  match jsLookup b kv.1 with
  | some v => (kv.1, v)
  | none => kv

/-- Model of the JavaScript object spread `{...a, ...b}`: every key of `a`
keeps its place but takes `b`'s value when `b` also binds it, and the keys of
`b` absent from `a` are appended.  Lookup-wise, `b` wins on conflicts. -/
def spread {V : Type} (a b : Settings V) : Settings V :=
  List.map (overrideWith b) a ++ List.filter (fun kv => !(hasKey a kv.1)) b

/-! Section: Entities (from the TypeORM entity classes) -/

/-- Entity `permissions` (`permission.entity.ts`); only the columns the
embedded operations read. -/
structure Permission where
  id : String
  code : String
  deriving Repr, DecidableEq

/-- Entity `roles` with its eager-loaded `permissions` relation. -/
structure Role where
  id : String
  permissions : List Permission
  deriving Repr, DecidableEq

/-- Entity `users` (`user.entity.ts`) with the eager-loaded `roles`
relation; `tenant_id` is a non-nullable column. -/
structure User where
  id : String
  email : String
  name : String
  tenantId : String
  roles : List Role
  deriving Repr, DecidableEq

/-- Entity `tenants` (`tenant.entity.ts`); `custom_settings` is a nullable
JSON column. -/
structure Tenant (V : Type) where
  id : String
  name : String
  status : String
  subscription_plan : String
  custom_settings : Option (Settings V)

/-- Entity `sub_applications` (`sub-application.entity.ts`); `url` is a
nullable column. -/
structure SubApplication where
  id : String
  code : String
  name : String
  path : String
  url : Option String
  status : String
  deriving Repr, DecidableEq

/-- Entity `tenant_applications` (`tenant-application.entity.ts`), the
Tenant-to-SubApplication pairing, composite key `(tenant_id, application_id)`,
with its own `status` and a nullable JSON `settings` column. -/
structure TenantApplication (V : Type) where
  tenant_id : String
  application_id : String
  status : String
  settings : Option (Settings V)

/-- The relational store: one list per entity table. -/
structure DB (V : Type) where
  tenants : List (Tenant V)
  users : List User
  roles : List Role
  subApplications : List SubApplication
  tenantApplications : List (TenantApplication V)

/-- Resolution of the `ta.application` many-to-one relation
(`application_id` foreign key); `none` models a `null` relation. -/
def applicationOf {V : Type} (db : DB V) (ta : TenantApplication V) :
    Option SubApplication :=
  List.find? (fun a => a.id == ta.application_id) db.subApplications

/-- Resolution of the `tenant.tenantApplications` one-to-many relation. -/
def tenantApplicationsOf {V : Type} (db : DB V) (t : Tenant V) :
    List (TenantApplication V) :=
  List.filter (fun ta => ta.tenant_id == t.id) db.tenantApplications

/-- Resolution of the `user.tenant` many-to-one relation; `none` models a
`null` relation (no tenant row matches the user's `tenant_id`). -/
def tenantOfUser {V : Type} (db : DB V) (u : User) : Option (Tenant V) :=
  List.find? (fun t => t.id == u.tenantId) db.tenants

/-! Section: TenantService.findAccessibleSubApplications
(`tenant/tenant.service.ts`, lines 41-127) -/

/-- Source line 75: `user.roles.flatMap((role) => role.permissions)`. -/
def userPermissionsOf (u : User) : List Permission :=
  List.flatMap u.roles (fun r => r.permissions)

/-- Source lines 80-86: the permissions whose code starts with `app:` and
ends with `:access`, mapped to `permission.code.split(':')[1]`. -/
def appAccessCodes (perms : List Permission) : List String :=
  List.map (fun p => (jsSplitChar p.code ':').getD 1 "")
    (List.filter
      (fun p => jsStartsWith p.code "app:" && jsEndsWith p.code ":access")
      perms)

/-- Source lines 95-126, after the user and tenant lookups: status filter on
the linked application, mapping to the application, then the permission-code
filter. -/
def accessibleAppsOf {V : Type} (db : DB V) (t : Tenant V)
    (perms : List Permission) : List SubApplication :=
  List.filter (fun a => (appAccessCodes perms).contains a.code)
    (List.filterMap (fun ta => applicationOf db ta)
      (List.filter
        (fun ta =>
          match applicationOf db ta with
          | some a => a.status == "active"
          | none => false)
        (tenantApplicationsOf db t)))

/-- `TenantService.findAccessibleSubApplications(userId)`: find the user with
relations; if the user or the user's tenant is absent return `[]`; otherwise
filter the tenant's pairings by linked-application status and the user's
`app:<code>:access` permission codes.  Note the pairing's own `status` column
is never consulted. -/
def findAccessibleSubApplications {V : Type} (db : DB V) (userId : String) :
    List SubApplication :=
  match List.find? (fun u => u.id == userId) db.users with
  | none => []
  | some user =>
    match tenantOfUser db user with
    | none => []
    | some tenant => accessibleAppsOf db tenant (userPermissionsOf user)

/-! Section: TenantService.getTenantConfigByAppCode
(`tenant/tenant.service.ts`, lines 129-181) -/

/-- Thrown NestJS exceptions of the tenant service (`NotFoundException`). -/
inductive ServiceError where
  | notFound (message : String)
  deriving Repr, DecidableEq

/-- Projection of the tenant placed into the returned configuration. -/
structure TenantInfo where
  id : String
  name : String
  subscription_plan : String
  deriving Repr, DecidableEq

/-- Projection of the application placed into the returned configuration. -/
structure ApplicationInfo where
  id : String
  code : String
  name : String
  path : String
  url : Option String
  deriving Repr, DecidableEq

/-- The configuration object returned by `getTenantConfigByAppCode`. -/
structure Config (V : Type) where
  tenant : TenantInfo
  application : ApplicationInfo
  settings : Settings V

/-- Source lines 147-152: `tenant.tenantApplications.find(ta => ta.application
&& ta.application.code === appcode && ta.application.status === 'active')`,
paired with the resolved application.  The pairing's own `status` is not part
of the predicate. -/
def findTenantApplicationByCode {V : Type} (db : DB V) (t : Tenant V)
    (appcode : String) : Option (TenantApplication V × SubApplication) :=
  List.find? (fun p => p.2.code == appcode && p.2.status == "active")
    (List.filterMap (fun ta => (applicationOf db ta).map (fun a => (ta, a)))
      (tenantApplicationsOf db t))

/-- `TenantService.getTenantConfigByAppCode(appcode, tenantId)`: the tenant
must exist with status `active` (else NotFound), the pairing's linked
application must match the code with status `active` (else NotFound), and the
settings are always `{...tenant.custom_settings, ...(pairing.settings || {})}`.
The method takes no mode parameter. -/
def getTenantConfigByAppCode {V : Type} (db : DB V)
    (appcode tenantId : String) : Except ServiceError (Config V) :=
  match List.find? (fun t => t.id == tenantId && t.status == "active")
      db.tenants with
  | none =>
    .error (.notFound ("Tenant with ID " ++ tenantId ++ " not found or inactive"))
  | some tenant =>
    match findTenantApplicationByCode db tenant appcode with
    | none =>
      .error (.notFound ("Application with code " ++ appcode ++
        " not found for this tenant or inactive"))
    | some (tenantApplication, app) =>
      .ok
        { tenant :=
            { id := tenant.id
              name := tenant.name
              subscription_plan := tenant.subscription_plan }
          application :=
            { id := app.id
              code := app.code
              name := app.name
              path := app.path
              url := app.url }
          settings :=
            spread (tenant.custom_settings.getD [])
              (tenantApplication.settings.getD []) }

/-! Section: TenantService.updateTenantAppSettings
(`tenant/tenant.service.ts`, lines 183-221) -/

/-- Source lines 193-202: `tenantApplicationRepository.findOne({ where: {
tenant_id: tenantId, application: { code: appcode, status: 'active' } } })`,
paired with the resolved application.  Neither the pairing's own `status` nor
the tenant's status is part of the predicate. -/
def findPairingForUpdate {V : Type} (db : DB V) (appcode tenantId : String) :
    Option (TenantApplication V × SubApplication) :=
  List.find?
    (fun p =>
      p.1.tenant_id == tenantId && p.2.code == appcode &&
        p.2.status == "active")
    (List.filterMap (fun ta => (applicationOf db ta).map (fun a => (ta, a)))
      db.tenantApplications)

/-- Persistence of the mutated row through
`tenantApplicationRepository.save`: the row carrying the found pairing's
composite primary key `(tenant_id, application_id)` receives the new
settings, every other row stays as it is. -/
def settingsWrite {V : Type} (tenantApp : TenantApplication V)
    (newSettings : Settings V) (t : TenantApplication V) :
    TenantApplication V :=
  if t.tenant_id == tenantApp.tenant_id &&
      t.application_id == tenantApp.application_id then
    { t with settings := some newSettings }
  else t

/-- `TenantService.updateTenantAppSettings(appcode, tenantId, settingsData)`:
find the pairing (NotFound on failure, store untouched), overwrite its
settings with `{...(settings || {}), ...settingsData}`, persist the row (keyed
by the composite primary key), then re-read through
`getTenantConfigByAppCode` on the updated store.  Returns the updated store
together with the call's result. -/
def updateTenantAppSettings {V : Type} (db : DB V) (appcode tenantId : String)
    (settingsData : Settings V) : DB V × Except ServiceError (Config V) :=
  match findPairingForUpdate db appcode tenantId with
  | none =>
    (db,
      .error (.notFound ("Application with code " ++ appcode ++
        " not found for tenant " ++ tenantId ++ " or inactive")))
  | some (tenantApp, _) =>
    let newSettings := spread (tenantApp.settings.getD []) settingsData
    let db' : DB V :=
      { db with
        tenantApplications :=
          List.map (settingsWrite tenantApp newSettings)
            db.tenantApplications }
    (db', getTenantConfigByAppCode db' appcode tenantId)

/-! Section: Login guard (`src/login.guard.ts`) and route metadata
(`src/custom-decorator.ts`) -/

/-- The `require-login` metadata visible on a route: the value set by
`RequireLogin` / `RequireLoginFalse` at controller-class level and at handler
level; `none` stands for no decorator. -/
structure RouteMeta where
  classValue : Option Bool
  handlerValue : Option Bool
  deriving Repr, DecidableEq

/-- Source lines 41-44: `reflector.getAllAndOverride('require-login',
[context.getClass(), context.getHandler()])` — the first defined value in
target order, so the controller-class value is consulted before the handler
value. -/
def getAllAndOverride (meta : RouteMeta) : Option Bool :=
  match meta.classValue with
  | some v => some v
  | none => meta.handlerValue

/-- The `user` claims object embedded in a signed token (`app.controller.ts`
`login`): id, email, name, tenantId, and the role list (of which `verifyAuth`
reads only the role ids, kept here as `roles`). -/
structure ClaimsUser where
  id : String
  email : String
  name : String
  tenantId : String
  roles : List String
  deriving Repr, DecidableEq

/-- The decoded token payload; `user` is `none` when the payload has no
`user` property. -/
structure TokenData where
  user : Option ClaimsUser
  deriving Repr, DecidableEq

/-- Failures of the external token codec `jwtService.verify`, discriminated
the way the code discriminates them: by `error.name`. -/
inductive VerifyError where
  | tokenExpiredError
  | jsonWebTokenError
  | otherError (message : String)
  deriving Repr, DecidableEq

/-- A verifier: the behaviour of `jwtService.verify` on the extracted token
(`none` standing for `undefined`), treated as an external parameter. -/
def Verifier : Type := Option String → Except VerifyError TokenData

/-- Outcome of `LoginGuard.canActivate`: pass (populating `request.user`
with the token's claims, when any) or `UnauthorizedException`. -/
inductive GuardOutcome where
  | allow (user : Option ClaimsUser)
  | unauthorized (message : String)
  deriving Repr, DecidableEq

/-- `LoginGuard.canActivate` (source lines 36-67): resolve `require-login`
via `getAllAndOverride`; when the resolved value is not `true` (absent or
`false`) pass immediately; otherwise require the Authorization header (else
`UnauthorizedException('User not logged in')`); then extract
`authorization.split(' ')[1]`, verify it, and on success store the claims —
every failure of extraction or verification is caught and mapped to
`UnauthorizedException('Token expired, please login again')`. -/
def canActivate (meta : RouteMeta) (authorization : Option String)
    (verify : Verifier) : GuardOutcome :=
  match getAllAndOverride meta with
  | some true =>
    match authorization with
    | none => .unauthorized "User not logged in"
    | some auth =>
      match verify (jsSplitSecond auth) with
      | .ok data => .allow data.user
      | .error _ => .unauthorized "Token expired, please login again"
  | _ => .allow none

/-! Section: TenantController (`tenant/tenant.controller.ts`) -/

/-- A thrown NestJS `HttpException`: message and HTTP status. -/
structure HttpExn where
  message : String
  status : Nat
  deriving Repr, DecidableEq

/-- The `mode` query parameter of `GET app-config`. -/
inductive Mode where
  | merge
  | standalone
  deriving Repr, DecidableEq

/-- `TenantController.getAppConfig` (source lines 40-71): reject with 401
when the request identity lacks a user id or tenant id (JavaScript falsiness:
absent or empty string); default the mode to `merge`; forward to
`getTenantConfigByAppCode` — which accepts no mode argument, so the resolved
mode is discarded; the catch re-wraps a service `NotFoundException` with its
own message and status 404. -/
def getAppConfig {V : Type} (db : DB V) (userId tenantId : Option String)
    (appcode : String) (mode : Option Mode) : Except HttpExn (Config V) :=
  if userId.getD "" == "" || tenantId.getD "" == "" then
    .error { message := "Invalid authentication", status := 401 }
  else
    let _configMode := mode.getD .merge
    match getTenantConfigByAppCode db appcode (tenantId.getD "") with
    | .ok c => .ok c
    | .error (.notFound m) => .error { message := m, status := 404 }

/-- `UserService.findRolesByIds` (`user/user.service.ts`): roles whose id is
in the given list, with permissions loaded. -/
def findRolesByIds {V : Type} (db : DB V) (roleIds : List String) :
    List Role :=
  List.filter (fun r => roleIds.contains r.id) db.roles

/-- The success payload of `verify-auth` (its `user` object). -/
structure VerifyAuthUser (V : Type) where
  id : String
  email : String
  name : String
  roles : List Role
  permissions : List Permission
  tenant : Option (Tenant V)

/-- `TenantController.verifyAuth` (source lines 73-132): 401 `'Not logged
in'` without an Authorization header; verify `authorization.split(' ')[1]`;
a missing or id-less `user` claim yields 401 `'Invalid token'`; on success
load the roles by id, flatten their permissions, and find the user's tenant
among the active tenants.  The catch distinguishes `error.name`:
`TokenExpiredError` yields 401 `'Token expired'`, `JsonWebTokenError` yields
401 `'Invalid token'`, anything else keeps its message (or `'Authentication
failed'`) with status 500. -/
def verifyAuth {V : Type} (db : DB V) (authorization : Option String)
    (verify : Verifier) : Except HttpExn (VerifyAuthUser V) :=
  match authorization with
  | none => .error { message := "Not logged in", status := 401 }
  | some auth =>
    match verify (jsSplitSecond auth) with
    | .error .tokenExpiredError =>
      .error { message := "Token expired", status := 401 }
    | .error .jsonWebTokenError =>
      .error { message := "Invalid token", status := 401 }
    | .error (.otherError m) =>
      .error
        { message := if m == "" then "Authentication failed" else m
          status := 500 }
    | .ok data =>
      match data.user with
      | none => .error { message := "Invalid token", status := 401 }
      | some u =>
        if u.id == "" then
          .error { message := "Invalid token", status := 401 }
        else
          let roles := findRolesByIds db u.roles
          let permissions := List.flatMap roles (fun r => r.permissions)
          let tenants := List.filter (fun t => t.status == "active") db.tenants
          let userTenant := List.find? (fun t => t.id == u.tenantId) tenants
          .ok
            { id := u.id
              email := u.email
              name := u.name
              roles := roles
              permissions := permissions
              tenant := userTenant }

/-! Section: Concrete fixtures (used by counterexamples and witnesses) -/

/-- The `einvoice` sub-application of the seed data, with status `active`. -/
def einvoiceApp : SubApplication :=
  { id := "a1", code := "einvoice", name := "Electronic Invoice System",
    path := "/einvoice", url := none, status := "active" }

/-- The seeded `app:einvoice:access` permission. -/
def einvoiceAccessPerm : Permission :=
  { id := "p1", code := "app:einvoice:access" }

/-- An active tenant with empty default settings. -/
def tenantT1 : Tenant Int :=
  { id := "t1", name := "T1", status := "active",
    subscription_plan := "enterprise", custom_settings := some [] }

/-- A pairing row between `tenantT1` and `einvoiceApp` whose own status is
`inactive`, with settings `{x:1}`. -/
def pairingT1A1Inactive : TenantApplication Int :=
  { tenant_id := "t1", application_id := "a1", status := "inactive",
    settings := some [("x", 1)] }

/-- A user of `tenantT1` holding the `app:einvoice:access` permission
through one role. -/
def userU1 : User :=
  { id := "u1", email := "admin@t1.com", name := "U1", tenantId := "t1",
    roles := [{ id := "r1", permissions := [einvoiceAccessPerm] }] }

/-- Store with an active tenant, the active `einvoice` application, and a
pairing between them whose own status is `inactive`. -/
def dbInactivePairing : DB Int :=
  { tenants := [tenantT1]
    users := []
    roles := []
    subApplications := [einvoiceApp]
    tenantApplications := [pairingT1A1Inactive] }

/-- Same store as `dbInactivePairing` plus a user of the tenant holding the
`app:einvoice:access` permission through one role. -/
def dbInactivePairingUser : DB Int :=
  { dbInactivePairing with users := [userU1] }

/-- A pairing row between `tenantT1` and `einvoiceApp` with status `active`
and settings `{x:1}`. -/
def pairingT1A1Active : TenantApplication Int :=
  { tenant_id := "t1", application_id := "a1", status := "active",
    settings := some [("x", 1)] }

/-- Store with an active tenant whose default settings are `{x:0, y:2}`, and
an active pairing to the active `einvoice` application with settings
`{x:1}`. -/
def dbMergeExample : DB Int :=
  { tenants := [{ id := "t1", name := "T1", status := "active",
                  subscription_plan := "enterprise",
                  custom_settings := some [("x", 0), ("y", 2)] }]
    users := []
    roles := []
    subApplications := [einvoiceApp]
    tenantApplications := [pairingT1A1Active] }

/-- Store with an inactive tenant but an active pairing to the active
`einvoice` application. -/
def dbInactiveTenant : DB Int :=
  { dbMergeExample with
    tenants := [{ id := "t1", name := "T1", status := "inactive",
                  subscription_plan := "enterprise",
                  custom_settings := some [] }] }

/-- Store with no rows at all. -/
def dbEmpty : DB Int :=
  { tenants := [], users := [], roles := [], subApplications := [],
    tenantApplications := [] }

/-- Verifier behaving like `jwtService.verify` on an expired token. -/
def verifyExpiredStub : Verifier := fun _ => .error .tokenExpiredError

/-- Verifier behaving like `jwtService.verify` on a malformed token. -/
def verifyInvalidStub : Verifier := fun _ => .error .jsonWebTokenError

/-- Settings lookup on the `settings` of a successful configuration result;
`none` on an error result. -/
def resultSettingsLookup {V : Type} (r : Except HttpExn (Config V))
    (k : String) : Option V :=
  match r with
  | .ok c => jsLookup c.settings k
  | .error _ => none

/-! Section: Helper lemmas on list and settings operations -/

theorem find?_filter_comm {α : Type} (p g : α → Bool) (l : List α)
    (h : ∀ x, p x = true → g x = true) :
    List.find? p (List.filter g l) = List.find? p l := by
  induction l with
  | nil => rfl
  | cons x xs ih =>
    rw [List.filter_cons]
    by_cases hg : g x = true
    · rw [if_pos hg, List.find?_cons, List.find?_cons]
      cases hp : p x
      · exact ih
      · rfl
    · have hp : p x = false := by
        cases hpx : p x
        · rfl
        · exact absurd (h x hpx) hg
      rw [if_neg hg, List.find?_cons, hp, ih]

theorem overrideWith_fst {V : Type} (b : Settings V) (kv : String × V) :
    (overrideWith b kv).1 = kv.1 := by
  unfold overrideWith
  cases jsLookup b kv.1 <;> rfl

theorem overrideWith_idem {V : Type} (b : Settings V) (kv : String × V) :
    overrideWith b (overrideWith b kv) = overrideWith b kv := by
  unfold overrideWith
  cases h : jsLookup b kv.1
  · simp [h]
  · simp [h]

theorem hasKey_eq_false_iff {V : Type} (a : Settings V) (k : String) :
    hasKey a k = false ↔ jsLookup a k = none := by
  unfold hasKey jsLookup
  constructor
  · intro h
    rw [Option.map_eq_none', List.find?_eq_none]
    intro x hx hpx
    have : List.any a (fun kv => kv.1 == k) = true :=
      List.any_eq_true.mpr ⟨x, hx, hpx⟩
    rw [h] at this
    exact Bool.false_ne_true this
  · intro h
    rw [Option.map_eq_none', List.find?_eq_none] at h
    by_contra hne
    have hT : List.any a (fun kv => kv.1 == k) = true := by
      cases hA : List.any a (fun kv => kv.1 == k)
      · exact absurd hA hne
      · rfl
    obtain ⟨x, hx, hpx⟩ := List.any_eq_true.mp hT
    exact h x hx hpx

theorem jsLookup_spread {V : Type} (a b : Settings V) (k : String) :
    jsLookup (spread a b) k =
      match jsLookup b k with
      | some v => some v
      | none => jsLookup a k := by
  unfold spread
  show (List.find? (fun kv => kv.1 == k) _).map Prod.snd = _
  rw [List.find?_append, List.find?_map]
  have hcomp : ((fun kv : String × V => kv.1 == k) ∘ overrideWith b) =
      (fun kv : String × V => kv.1 == k) := by
    funext kv
    simp [Function.comp, overrideWith_fst]
  rw [hcomp]
  cases ha : List.find? (fun kv : String × V => kv.1 == k) a with
  | some kv =>
    have hk : kv.1 = k := by
      have := List.find?_some ha
      simpa using this
    simp only [Option.map_some', Option.or_some]
    unfold overrideWith
    rw [hk]
    cases hb : jsLookup b k
    · simp [hb, jsLookup, ha]
    · simp [hb]
  | none =>
    simp only [Option.map_none', Option.none_or]
    have himp : ∀ kv : String × V, (kv.1 == k) = true →
        (!(hasKey a kv.1)) = true := by
      intro kv hkv
      have hk : kv.1 = k := by simpa using hkv
      have : hasKey a kv.1 = false := by
        rw [hk, hasKey_eq_false_iff]
        unfold jsLookup
        rw [ha]
        rfl
      rw [this]
      rfl
    rw [find?_filter_comm _ _ _ himp]
    cases hb : List.find? (fun kv : String × V => kv.1 == k) b
    · simp [jsLookup, hb, ha]
    · simp [jsLookup, hb]

theorem jsLookup_of_mem_nodup {V : Type} {b : Settings V} {kv : String × V}
    (hnd : (b.map Prod.fst).Nodup) (hmem : kv ∈ b) :
    jsLookup b kv.1 = some kv.2 := by
  induction b with
  | nil => cases hmem
  | cons x xs ih =>
    rw [List.map_cons, List.nodup_cons] at hnd
    rcases List.mem_cons.mp hmem with h | h
    · subst h
      unfold jsLookup
      rw [List.find?_cons]
      simp
    · have hx : (x.1 == kv.1) = false := by
        rw [beq_eq_false_iff_ne]
        intro he
        exact hnd.1 (he ▸ List.mem_map_of_mem Prod.fst h)
      have := ih hnd.2 h
      unfold jsLookup at this ⊢
      rw [List.find?_cons, hx]
      exact this

theorem jsLookup_isSome_of_mem {V : Type} {b : Settings V} {kv : String × V}
    (hmem : kv ∈ b) : ∃ v, jsLookup b kv.1 = some v := by
  unfold jsLookup
  have hs : (List.find? (fun x : String × V => x.1 == kv.1) b).isSome = true :=
    List.find?_isSome.mpr ⟨kv, hmem, by simp⟩
  obtain ⟨x, hx⟩ := Option.isSome_iff_exists.mp hs
  exact ⟨x.2, by rw [hx]; rfl⟩

/-- Re-spreading the same right-hand object is absorbed, provided the
right-hand object binds each key once (as a JavaScript object does). -/
theorem spread_absorb {V : Type} (a b : Settings V)
    (hb : (b.map Prod.fst).Nodup) : spread (spread a b) b = spread a b := by
  have hmap : List.map (overrideWith b) (spread a b) = spread a b := by
    unfold spread
    rw [List.map_append, List.map_map]
    congr 1
    · exact List.map_congr_left (fun kv _ => overrideWith_idem b kv)
    · have hpt : ∀ kv ∈ List.filter
          (fun kv : String × V => !(hasKey a kv.1)) b,
          overrideWith b kv = id kv := by
        intro kv hkv
        have hmem : kv ∈ b := (List.mem_filter.mp hkv).1
        unfold overrideWith
        rw [jsLookup_of_mem_nodup hb hmem]
        rfl
      rw [List.map_congr_left hpt, List.map_id]
  have hfilter :
      List.filter (fun kv : String × V => !(hasKey (spread a b) kv.1)) b
        = [] := by
    rw [List.filter_eq_nil_iff]
    intro kv hkv
    obtain ⟨v, hv⟩ := jsLookup_isSome_of_mem hkv
    have hk : hasKey (spread a b) kv.1 = true := by
      cases hK : hasKey (spread a b) kv.1
      · have := (hasKey_eq_false_iff _ _).mp hK
        rw [jsLookup_spread, hv] at this
        cases this
      · rfl
    simp [hk]
  show List.map (overrideWith b) (spread a b)
      ++ List.filter (fun kv : String × V => !(hasKey (spread a b) kv.1)) b
    = spread a b
  rw [hmap, hfilter, List.append_nil]

/-- Setting a structure field to the value it already holds is the
identity (for pairing rows). -/
theorem ta_set_settings_self {V : Type} (t : TenantApplication V)
    (s : Option (Settings V)) (h : t.settings = s) :
    ({ t with settings := s } : TenantApplication V) = t := by
  cases t
  cases h
  rfl

/-- Setting the pairing table to the list it already holds is the identity
(for stores). -/
theorem db_set_tenantApplications_self {V : Type} (d : DB V)
    (l : List (TenantApplication V)) (h : l = d.tenantApplications) :
    ({ d with tenantApplications := l } : DB V) = d := by
  cases d
  cases h
  rfl

theorem settingsWrite_tenant_id {V : Type} (ta : TenantApplication V)
    (sN : Settings V) (t : TenantApplication V) :
    (settingsWrite ta sN t).tenant_id = t.tenant_id := by
  unfold settingsWrite
  split <;> rfl

theorem settingsWrite_application_id {V : Type} (ta : TenantApplication V)
    (sN : Settings V) (t : TenantApplication V) :
    (settingsWrite ta sN t).application_id = t.application_id := by
  unfold settingsWrite
  split <;> rfl

theorem settingsWrite_self {V : Type} (ta : TenantApplication V)
    (sN : Settings V) :
    settingsWrite ta sN ta = { ta with settings := some sN } := by
  unfold settingsWrite
  simp

theorem applicationOf_settingsWrite {V : Type} (db : DB V)
    (ta : TenantApplication V) (sN : Settings V) (t : TenantApplication V) :
    applicationOf db (settingsWrite ta sN t) = applicationOf db t := by
  unfold applicationOf
  rw [settingsWrite_application_id]

/-- After persisting new settings for the found pairing, the same `findOne`
query finds the same row again, now carrying the new settings. -/
theorem findPairingForUpdate_settingsWrite {V : Type} (db : DB V)
    (appcode tenantId : String) (ta : TenantApplication V)
    (a : SubApplication) (sN : Settings V)
    (hFind : findPairingForUpdate db appcode tenantId = some (ta, a)) :
    findPairingForUpdate
        { db with tenantApplications :=
            List.map (settingsWrite ta sN) db.tenantApplications }
        appcode tenantId
      = some ({ ta with settings := some sN }, a) := by
  unfold findPairingForUpdate at hFind ⊢
  have hdbApp : ∀ t : TenantApplication V,
      applicationOf
          { db with tenantApplications :=
              List.map (settingsWrite ta sN) db.tenantApplications } t
        = applicationOf db t := fun _ => rfl
  simp only [hdbApp]
  rw [List.filterMap_map]
  have hfun : ((fun t : TenantApplication V =>
        (applicationOf db t).map (fun x => (t, x))) ∘ settingsWrite ta sN)
      = fun t : TenantApplication V =>
        Option.map
          (fun q : TenantApplication V × SubApplication =>
            (settingsWrite ta sN q.1, q.2))
          ((applicationOf db t).map (fun x => (t, x))) := by
    funext t
    show (applicationOf db (settingsWrite ta sN t)).map
        (fun x => (settingsWrite ta sN t, x)) = _
    rw [applicationOf_settingsWrite, Option.map_map]
    rfl
  rw [hfun, ← List.map_filterMap]
  rw [List.find?_map]
  have hpred : ((fun p : TenantApplication V × SubApplication =>
        p.1.tenant_id == tenantId && p.2.code == appcode &&
          p.2.status == "active") ∘
      (fun q : TenantApplication V × SubApplication =>
        (settingsWrite ta sN q.1, q.2)))
      = fun p : TenantApplication V × SubApplication =>
        p.1.tenant_id == tenantId && p.2.code == appcode &&
          p.2.status == "active" := by
    funext p
    show ((settingsWrite ta sN p.1).tenant_id == tenantId && p.2.code == appcode &&
        p.2.status == "active")
      = (p.1.tenant_id == tenantId && p.2.code == appcode &&
        p.2.status == "active")
    rw [settingsWrite_tenant_id]
  rw [hpred, hFind]
  show some (settingsWrite ta sN ta, a) = _
  rw [settingsWrite_self]

theorem contains_iff_mem {α : Type} [BEq α] [LawfulBEq α] (l : List α)
    (a : α) : l.contains a = true ↔ a ∈ l := by
  rw [List.contains_eq_any_beq, List.any_eq_true]
  constructor
  · rintro ⟨x, hx, hbeq⟩
    rw [eq_of_beq hbeq]
    exact hx
  · intro h
    exact ⟨a, h, beq_self_eq_true a⟩

theorem contains_eq_of_perm {α : Type} [BEq α] [LawfulBEq α]
    {l₁ l₂ : List α} (h : l₁.Perm l₂) (a : α) :
    l₁.contains a = l₂.contains a := by
  by_cases hm : a ∈ l₂
  · rw [(contains_iff_mem l₁ a).mpr (h.mem_iff.mpr hm),
      (contains_iff_mem l₂ a).mpr hm]
  · have h1 : l₁.contains a = false := by
      cases hc : l₁.contains a
      · rfl
      · exact absurd (h.mem_iff.mp ((contains_iff_mem l₁ a).mp hc)) hm
    have h2 : l₂.contains a = false := by
      cases hc : l₂.contains a
      · rfl
      · exact absurd ((contains_iff_mem l₂ a).mp hc) hm
    rw [h1, h2]

/-- Writing the same settings twice through `settingsWrite` (the second time
keyed by the already-written row) changes nothing. -/
theorem settingsWrite_stable {V : Type} (ta : TenantApplication V)
    (sN sN2 : Settings V) (h : sN2 = sN) (t : TenantApplication V) :
    settingsWrite { ta with settings := some sN } sN2 (settingsWrite ta sN t)
      = settingsWrite ta sN t := by
  unfold settingsWrite
  by_cases hc : (t.tenant_id == ta.tenant_id &&
      t.application_id == ta.application_id) = true
  · rw [if_pos hc, if_pos hc, h]
  · rw [if_neg hc, if_neg hc]

/-! Section: Claim theorems -/

/-- C1 counterexample: in `dbInactivePairing` the tenant is active, the
linked application is active, the pairing's own status is `inactive`, and yet
`getTenantConfigByAppCode` succeeds with a configuration instead of failing
NotFound. -/
theorem C1_counterexample :
    (dbInactivePairing.tenants.map (fun t => t.status)) = ["active"]
    ∧ (dbInactivePairing.subApplications.map (fun a => a.status)) = ["active"]
    ∧ (dbInactivePairing.tenantApplications.map (fun ta => ta.status))
      = ["inactive"]
    ∧ (getTenantConfigByAppCode dbInactivePairing "einvoice" "t1").isOk
      = true :=
  ⟨rfl, rfl, rfl, rfl⟩

/-- C1 (amended): `getTenantConfigByAppCode` never consults the pairing's own
status — when the tenant lookup succeeds and a pairing resolves to an
application with the requested code and status `active`, the call returns a
configuration even though the pairing's own status is not `active`. -/
theorem getTenantConfig_ignores_pairing_status {V : Type} (db : DB V)
    (appcode tenantId : String) (t : Tenant V) (ta : TenantApplication V)
    (a : SubApplication)
    (hT : List.find? (fun x => x.id == tenantId && x.status == "active")
        db.tenants = some t)
    (hTA : findTenantApplicationByCode db t appcode = some (ta, a))
    (_hS : ta.status ≠ "active") :
    ∃ c, getTenantConfigByAppCode db appcode tenantId = .ok c := by
  unfold getTenantConfigByAppCode
  simp only [hT, hTA]
  exact ⟨_, rfl⟩

/-- C1 witness: the amended theorem applied to `dbInactivePairing`. -/
theorem getTenantConfig_ignores_pairing_status_witness :
    ∃ c, getTenantConfigByAppCode dbInactivePairing "einvoice" "t1"
      = .ok c :=
  getTenantConfig_ignores_pairing_status dbInactivePairing "einvoice" "t1"
    tenantT1 pairingT1A1Inactive einvoiceApp rfl rfl (by decide)

/-- C2 counterexample: in `dbInactivePairingUser` the only pairing's own
status is `inactive`, yet `findAccessibleSubApplications` returns its linked
application — contradicting the claimed condition that the pairing's own
status must be `active` for the application to be listed. -/
theorem C2_counterexample :
    findAccessibleSubApplications dbInactivePairingUser "u1" = [einvoiceApp]
    ∧ (dbInactivePairingUser.tenantApplications.map (fun ta => ta.status))
      = ["inactive"] :=
  ⟨rfl, rfl⟩

/-- C2 (amended): for a user that exists and whose tenant resolves,
`findAccessibleSubApplications` returns exactly the applications `a` such
that some pairing of the tenant (of any status — the pairing's own status is
ignored) links to `a`, `a` is `active`, and `a.code` is among the codes
extracted from the user's permissions whose code starts with `app:` and ends
with `:access` (second colon-segment); the result is invariant under
permutation of the user's flattened permission list. -/
theorem findAccessibleSubApplications_characterization {V : Type} (db : DB V)
    (userId : String) (u : User) (t : Tenant V)
    (hU : List.find? (fun x => x.id == userId) db.users = some u)
    (hT : tenantOfUser db u = some t) :
    (∀ a : SubApplication,
      a ∈ findAccessibleSubApplications db userId ↔
        (∃ ta ∈ tenantApplicationsOf db t, applicationOf db ta = some a)
        ∧ a.status = "active"
        ∧ a.code ∈ appAccessCodes (userPermissionsOf u))
    ∧ ∀ perms' : List Permission, perms'.Perm (userPermissionsOf u) →
        accessibleAppsOf db t perms'
          = accessibleAppsOf db t (userPermissionsOf u) := by
  have hres : findAccessibleSubApplications db userId
      = accessibleAppsOf db t (userPermissionsOf u) := by
    unfold findAccessibleSubApplications
    simp only [hU, hT]
  refine ⟨?_, ?_⟩
  · intro a
    rw [hres]
    unfold accessibleAppsOf
    constructor
    · intro hmem
      obtain ⟨hmem2, hcont⟩ := List.mem_filter.mp hmem
      obtain ⟨ta, hta, happ⟩ := List.mem_filterMap.mp hmem2
      obtain ⟨htamem, hstat⟩ := List.mem_filter.mp hta
      rw [happ] at hstat
      refine ⟨⟨ta, htamem, happ⟩, ?_, ?_⟩
      · exact eq_of_beq hstat
      · exact (contains_iff_mem _ _).mp hcont
    · rintro ⟨⟨ta, htamem, happ⟩, hstat, hcode⟩
      apply List.mem_filter.mpr
      refine ⟨?_, (contains_iff_mem _ _).mpr hcode⟩
      apply List.mem_filterMap.mpr
      refine ⟨ta, ?_, happ⟩
      apply List.mem_filter.mpr
      refine ⟨htamem, ?_⟩
      rw [happ]
      show (a.status == "active") = true
      rw [hstat]
      exact beq_self_eq_true _
  · intro perms' hperm
    unfold accessibleAppsOf
    apply List.filter_congr
    intro a _
    have hcodes : (appAccessCodes perms').Perm
        (appAccessCodes (userPermissionsOf u)) := by
      unfold appAccessCodes
      exact (hperm.filter _).map _
    exact contains_eq_of_perm hcodes a.code

/-- C2 witness: the amended characterization instantiated on
`dbInactivePairingUser` at the `einvoice` application. -/
theorem findAccessibleSubApplications_characterization_witness :
    einvoiceApp ∈ findAccessibleSubApplications dbInactivePairingUser "u1" ↔
      (∃ ta ∈ tenantApplicationsOf dbInactivePairingUser tenantT1,
        applicationOf dbInactivePairingUser ta = some einvoiceApp)
      ∧ einvoiceApp.status = "active"
      ∧ einvoiceApp.code ∈ appAccessCodes (userPermissionsOf userU1) :=
  (findAccessibleSubApplications_characterization dbInactivePairingUser "u1"
    userU1 tenantT1 rfl rfl).1 einvoiceApp

/-- C3 counterexample: a route carrying no login-required flag at either
level passes a request with no credential at all — the default is not
"required". -/
theorem C3_counterexample :
    canActivate { classValue := none, handlerValue := none } none
      verifyInvalidStub = .allow none := rfl

/-- C3 (amended): when neither the controller class nor the handler declares
the `require-login` flag, the Login Guard passes every request immediately,
valid credential or not: the default of the flag is false, not true. -/
theorem loginGuard_default_allows (authorization : Option String)
    (verify : Verifier) :
    canActivate { classValue := none, handlerValue := none } authorization
      verify = .allow none := rfl

/-- C4 counterexample: the handler declares `require-login = true`, the
controller class declares `false`; a request with no credential passes, so
the decision followed the controller-level declaration, not the
handler-level one. -/
theorem C4_counterexample :
    canActivate { classValue := some false, handlerValue := some true } none
      verifyInvalidStub = .allow none := rfl

/-- C4 (amended): `getAllAndOverride('require-login', [getClass(),
getHandler()])` consults the controller class first, so whenever the class
declares the flag the handler-level declaration is irrelevant: the guard's
decision follows the controller-level value. -/
theorem loginGuard_controller_overrides_handler (b : Bool) (hv : Option Bool)
    (authorization : Option String) (verify : Verifier) :
    getAllAndOverride { classValue := some b, handlerValue := hv } = some b
    ∧ canActivate { classValue := some b, handlerValue := hv } authorization
        verify
      = canActivate { classValue := some b, handlerValue := some b }
          authorization verify := by
  refine ⟨rfl, ?_⟩
  cases b <;> rfl

/-- C5: on `dbMergeExample` (tenant defaults `{x:0, y:2}`, pairing settings
`{x:1}`, everything active) a `standalone`-mode request returns exactly the
same configuration as a `merge`-mode request, and its settings still contain
the tenant default `y:2` — the mode the controller resolves is dropped
because the service method takes no mode parameter. -/
theorem getAppConfig_mode_ignored :
    getAppConfig dbMergeExample (some "u1") (some "t1") "einvoice"
        (some Mode.standalone)
      = getAppConfig dbMergeExample (some "u1") (some "t1") "einvoice"
          (some Mode.merge)
    ∧ resultSettingsLookup
        (getAppConfig dbMergeExample (some "u1") (some "t1") "einvoice"
          (some Mode.standalone)) "y" = some 2
    ∧ resultSettingsLookup
        (getAppConfig dbMergeExample (some "u1") (some "t1") "einvoice"
          (some Mode.standalone)) "x" = some 1 :=
  ⟨rfl, rfl, rfl⟩

/-- C6 counterexample: the Login Guard rejects an expired token and a
structurally invalid token with the very same message, so its two rejections
are not distinguishable. -/
theorem C6_counterexample :
    canActivate { classValue := some true, handlerValue := none }
        (some "Bearer abc") verifyExpiredStub
      = .unauthorized "Token expired, please login again"
    ∧ canActivate { classValue := some true, handlerValue := none }
        (some "Bearer abc") verifyInvalidStub
      = .unauthorized "Token expired, please login again" :=
  ⟨rfl, rfl⟩

/-- C6 (amended): the Login Guard maps every token failure to the single
message `Token expired, please login again`; the distinction between an
expired and a structurally invalid token is made only by the `verify-auth`
endpoint, which answers 401 `Token expired` versus 401 `Invalid token`. -/
theorem loginGuard_uniform_verifyAuth_distinguishes {V : Type} (db : DB V)
    (auth : String) (vE vI : Verifier)
    (hE : vE (jsSplitSecond auth) = .error .tokenExpiredError)
    (hI : vI (jsSplitSecond auth) = .error .jsonWebTokenError) :
    canActivate { classValue := some true, handlerValue := none } (some auth)
        vE
      = canActivate { classValue := some true, handlerValue := none }
          (some auth) vI
    ∧ verifyAuth db (some auth) vE
      = .error { message := "Token expired", status := 401 }
    ∧ verifyAuth db (some auth) vI
      = .error { message := "Invalid token", status := 401 } := by
  refine ⟨?_, ?_, ?_⟩ <;>
    simp [canActivate, verifyAuth, getAllAndOverride, hE, hI]

/-- C6 witness: the amended theorem applied to the two stub verifiers on the
empty store. -/
theorem loginGuard_uniform_verifyAuth_distinguishes_witness :
    canActivate { classValue := some true, handlerValue := none }
        (some "Bearer abc") verifyExpiredStub
      = canActivate { classValue := some true, handlerValue := none }
          (some "Bearer abc") verifyInvalidStub
    ∧ verifyAuth dbEmpty (some "Bearer abc") verifyExpiredStub
      = .error { message := "Token expired", status := 401 }
    ∧ verifyAuth dbEmpty (some "Bearer abc") verifyInvalidStub
      = .error { message := "Invalid token", status := 401 } :=
  loginGuard_uniform_verifyAuth_distinguishes dbEmpty "Bearer abc"
    verifyExpiredStub verifyInvalidStub rfl rfl

/-- C7: when `updateTenantAppSettings` finds its pairing (here an active one
with an active application), every row carrying the pairing's composite key
in the resulting store holds settings equal to the shallow merge of the old
settings `S` overlaid by the patch `P`; lookup-wise `P` wins on every key it
binds, every other key of `S` is retained, and no key is unset; re-applying
the identical patch (whose keys, as those of a JavaScript object, are
distinct) leaves the store unchanged. -/
theorem updateTenantAppSettings_merge_idempotent {V : Type} (db : DB V)
    (appcode tenantId : String) (P : Settings V) (ta : TenantApplication V)
    (a : SubApplication)
    (hFind : findPairingForUpdate db appcode tenantId = some (ta, a))
    (_hActive : ta.status = "active")
    (hNodup : (P.map Prod.fst).Nodup) :
    (∀ t' ∈ (updateTenantAppSettings db appcode
        tenantId P).1.tenantApplications,
      t'.tenant_id = ta.tenant_id → t'.application_id = ta.application_id →
        t'.settings = some (spread (ta.settings.getD []) P))
    ∧ (∀ k, jsLookup (spread (ta.settings.getD []) P) k
        = match jsLookup P k with
          | some v => some v
          | none => jsLookup (ta.settings.getD []) k)
    ∧ (updateTenantAppSettings
          ((updateTenantAppSettings db appcode tenantId P).1)
          appcode tenantId P).1
      = (updateTenantAppSettings db appcode tenantId P).1 := by
  have hstate : (updateTenantAppSettings db appcode tenantId P).1
      = { db with
          tenantApplications :=
              List.map (settingsWrite ta (spread (ta.settings.getD []) P))
                db.tenantApplications } := by
    unfold updateTenantAppSettings
    rw [hFind]
  refine ⟨?_, ?_, ?_⟩
  · intro t' hmem hten happid
    rw [hstate] at hmem
    obtain ⟨t0, ht0, hw⟩ := List.mem_map.mp hmem
    by_cases hc : (t0.tenant_id == ta.tenant_id &&
        t0.application_id == ta.application_id) = true
    · rw [← hw]
      unfold settingsWrite
      rw [if_pos hc]
    · exfalso
      have hid : settingsWrite ta (spread (ta.settings.getD []) P) t0 = t0 := by
        unfold settingsWrite
        rw [if_neg hc]
      rw [hid] at hw
      apply hc
      rw [hw, hten, happid]
      simp
  · intro k
    exact jsLookup_spread (ta.settings.getD []) P k
  · rw [hstate]
    have hFind2 := findPairingForUpdate_settingsWrite db appcode tenantId ta a
      (spread (ta.settings.getD []) P) hFind
    unfold updateTenantAppSettings
    rw [hFind2]
    show ({ { db with
              tenantApplications :=
                  List.map
                    (settingsWrite ta (spread (ta.settings.getD []) P))
                    db.tenantApplications } with
            tenantApplications :=
                List.map
                  (settingsWrite
                    ({ ta with
                       settings := some (spread (ta.settings.getD []) P) })
                    (spread
                      ((some (spread (ta.settings.getD []) P) :
                          Option (Settings V)).getD [])
                      P))
                  (List.map
                    (settingsWrite ta (spread (ta.settings.getD []) P))
                    db.tenantApplications) } : DB V)
      = { db with
          tenantApplications :=
              List.map (settingsWrite ta (spread (ta.settings.getD []) P))
                db.tenantApplications }
    have habs : spread
        ((some (spread (ta.settings.getD []) P) :
            Option (Settings V)).getD []) P
        = spread (ta.settings.getD []) P :=
      spread_absorb (ta.settings.getD []) P hNodup
    rw [habs]
    apply db_set_tenantApplications_self
    rw [List.map_map]
    show List.map
        ((settingsWrite
            ({ ta with settings := some (spread (ta.settings.getD []) P) })
            (spread (ta.settings.getD []) P)) ∘
          (settingsWrite ta (spread (ta.settings.getD []) P)))
        db.tenantApplications
      = List.map (settingsWrite ta (spread (ta.settings.getD []) P))
          db.tenantApplications
    apply List.map_congr_left
    intro t0 _
    exact settingsWrite_stable ta (spread (ta.settings.getD []) P)
      (spread (ta.settings.getD []) P) rfl t0

/-- C7 witness: the theorem applied to `dbMergeExample` (active pairing with
settings `{x:1}`) and the patch `{y:9}`, projected to the closed idempotence
conjunct. -/
theorem updateTenantAppSettings_merge_idempotent_witness :
    (updateTenantAppSettings
        ((updateTenantAppSettings dbMergeExample "einvoice" "t1"
          [("y", 9)]).1)
        "einvoice" "t1" [("y", 9)]).1
      = (updateTenantAppSettings dbMergeExample "einvoice" "t1"
          [("y", 9)]).1 :=
  (updateTenantAppSettings_merge_idempotent dbMergeExample "einvoice" "t1"
    [("y", 9)] pairingT1A1Active einvoiceApp rfl rfl (by decide)).2.2

/-- C8: `findAccessibleSubApplications` returns the empty list — and, being
a total function into lists in this embedding, raises nothing — whenever the
user lookup fails or the user's tenant relation resolves to null. -/
theorem findAccessibleSubApplications_absent_empty {V : Type} (db : DB V)
    (userId : String)
    (h : List.find? (fun u => u.id == userId) db.users = none
      ∨ ∃ u, List.find? (fun u => u.id == userId) db.users = some u
          ∧ tenantOfUser db u = none) :
    findAccessibleSubApplications db userId = [] := by
  unfold findAccessibleSubApplications
  rcases h with h | ⟨u, hu, ht⟩
  · rw [h]
  · simp only [hu, ht]

/-- C8 witness: the theorem applied to the empty store and an unknown user
id. -/
theorem findAccessibleSubApplications_absent_empty_witness :
    findAccessibleSubApplications dbEmpty "nobody" = [] :=
  findAccessibleSubApplications_absent_empty dbEmpty "nobody" (Or.inl rfl)

/-- C9 counterexample: on `dbInactiveTenant` (inactive tenant, active
pairing to the active application, stored settings `{x:1}`) the update call
raises NotFound from its re-read and nevertheless leaves the merged settings
`{x:1, y:9}` persisted — the operation is not atomic with respect to
errors. -/
theorem C9_counterexample :
    (updateTenantAppSettings dbInactiveTenant "einvoice" "t1" [("y", 9)]).2
      = .error (.notFound "Tenant with ID t1 not found or inactive")
    ∧ ((updateTenantAppSettings dbInactiveTenant "einvoice" "t1"
          [("y", 9)]).1.tenantApplications.map (fun t => t.settings))
      = [some [("x", 1), ("y", 9)]]
    ∧ (dbInactiveTenant.tenantApplications.map (fun t => t.settings))
      = [some [("x", 1)]] :=
  ⟨rfl, rfl, rfl⟩

/-- C9 (amended): atomicity holds only for the lookup phase — when the
pairing query fails, the store is unchanged and the call returns NotFound;
a failure of the re-read (for example an inactive tenant) happens after the
merged settings were already persisted. -/
theorem updateTenantAppSettings_lookup_failure_atomic {V : Type} (db : DB V)
    (appcode tenantId : String) (P : Settings V)
    (h : findPairingForUpdate db appcode tenantId = none) :
    (updateTenantAppSettings db appcode tenantId P).1 = db
    ∧ (updateTenantAppSettings db appcode tenantId P).2
      = .error (.notFound ("Application with code " ++ appcode ++
          " not found for tenant " ++ tenantId ++ " or inactive")) := by
  unfold updateTenantAppSettings
  rw [h]
  exact ⟨rfl, rfl⟩

/-- C9 witness: the amended theorem applied to the empty store. -/
theorem updateTenantAppSettings_lookup_failure_atomic_witness :
    (updateTenantAppSettings dbEmpty "einvoice" "t1" [("y", 9)]).1 = dbEmpty
    ∧ (updateTenantAppSettings dbEmpty "einvoice" "t1" [("y", 9)]).2
      = .error (.notFound ("Application with code " ++ "einvoice" ++
          " not found for tenant " ++ "t1" ++ " or inactive")) :=
  updateTenantAppSettings_lookup_failure_atomic dbEmpty "einvoice" "t1"
    [("y", 9)] rfl

/-- C10: on a login-required route with an Authorization header present,
every failure of the token codec — including on the `undefined` token
extracted from a header with no second space-separated part — is mapped to
the guard's `UnauthorizedException`; the embedding is a total function into
allow-or-unauthorized outcomes, so no other exception can escape. -/
theorem loginGuard_maps_failures_to_unauthorized (meta : RouteMeta)
    (auth : String) (verify : Verifier) (e : VerifyError)
    (hMeta : getAllAndOverride meta = some true)
    (hV : verify (jsSplitSecond auth) = .error e) :
    canActivate meta (some auth) verify
      = .unauthorized "Token expired, please login again" := by
  unfold canActivate
  simp only [hMeta, hV]

/-- C10 witness: the theorem applied to a header with no second part (the
codec receives `undefined` and rejects). -/
theorem loginGuard_maps_failures_to_unauthorized_witness :
    canActivate { classValue := some true, handlerValue := none }
      (some "Bearer") verifyInvalidStub
    = .unauthorized "Token expired, please login again" :=
  loginGuard_maps_failures_to_unauthorized
    { classValue := some true, handlerValue := none } "Bearer"
    verifyInvalidStub .jsonWebTokenError rfl rfl

end RGHub
